import Mathlib

/-!
# Verification of the SAP B1 reporter query execution and pagination engine

Shallow embedding of the query-execution core of the repository:

* `processPage`, `fetchPages` — the `fetchAll` pagination loop of
  `executeSAPB1Query` (`src/app/api/execute-query/route.ts`, lines 862-1042);
* `buildPageParams`, `singleRequestParams`, `limitFilterParams` — the query
  parameter construction of the fetcher and of the `POST` handler;
* `getConnectionKey`, `getCachedSessionM`, `cacheSessionM`, `removeSessionM`,
  `loginToSAPB1M` — the session manager (`src/lib/session-manager.ts`) and the
  cache-consulting part of `loginToSAPB1`;
* `postHandler` — the error-handling / retry orchestration of the `POST`
  handler (lines 1235-1331).

Query parameter strings are embedded as lists of `QClause` values: one clause
per `&`-separated `$`-parameter, with `$top=N` clauses represented
structurally (the code only ever manipulates numeric `$top=` clauses, via
`includes` and the regex `\$top=\d+`) and all other clauses kept opaque.
Upstream HTTP calls are oracles: a function from the requested `$skip` offset
to the page the server answers (the rest of a page request is constant during
one run), `Except.error` standing for a thrown request failure.  JS timestamps
(`Date.now()`) are naturals in milliseconds.
-/

/-! ## Characters and strings: `includes` and first-occurrence `replace` -/

/-- Boolean test that the first list is an initial segment of the second. -/
def startsWithChars : List Char → List Char → Bool
  | [], _ => true
  | _ :: _, [] => false
  | p :: ps, c :: cs => p == c && startsWithChars ps cs

/-- Does `s` contain `pat` as a contiguous run?  Embeds JS
`String.prototype.includes`. -/
def charsContain (pat : List Char) : List Char → Bool
  | [] => startsWithChars pat []
  | c :: rest => startsWithChars pat (c :: rest) || charsContain pat rest

/-- Replace the first occurrence of `pat` by `repl`.  Embeds JS
`String.prototype.replace` with a plain-string (or digit-regex) pattern,
which rewrites only the first match. -/
def charsReplaceFirst (pat repl : List Char) : List Char → List Char
  | [] => []
  | c :: rest =>
    if startsWithChars pat (c :: rest) then repl ++ (c :: rest).drop pat.length
    else c :: charsReplaceFirst pat repl rest

/-- String-level `includes`. -/
def strIncludes (s pat : String) : Bool :=
  charsContain pat.data s.data

/-- String-level first-occurrence `replace`. -/
def strReplaceFirst (s pat repl : String) : String :=
  String.mk (charsReplaceFirst pat.data repl.data s.data)

/-- ASCII whitespace as removed by `trim` (server URLs hold no exotic
whitespace). -/
def isWhitespaceChar (c : Char) : Bool :=
  c == ' ' || c == '\t' || c == '\n' || c == '\r'

/-- Embeds `String.prototype.trim`: drop whitespace from both ends. -/
def strTrim (s : String) : String :=
  String.mk (((s.data.dropWhile isWhitespaceChar).reverse.dropWhile
    isWhitespaceChar).reverse)

/-- Embeds `replace(/\/$/, '')`: drop one trailing slash if present. -/
def stripTrailingSlash (s : String) : String :=
  if s.data.getLast? = some '/' then String.mk s.data.dropLast else s

/-! ## Server URL normalization and the session cache
(`src/lib/session-manager.ts`) -/

/-- Connection settings sent by the client (`SAPB1Settings`). -/
structure SAPB1Settings where
  sapServer : String
  companyDB : String
  userName : String
  password : String
deriving DecidableEq

/-- URL normalization shared by `loginToSAPB1` (route.ts lines 28-34) and
`getConnectionKey` (session-manager lines 52-58): trim, strip one trailing
slash, then strip a known login-path tail, re-stripping the slash each time. -/
def normalizeServerUrl (server : String) : String :=
  let s0 := stripTrailingSlash (strTrim server)
  let s1 := if strIncludes s0 "/b1s/v1/Login" then
      stripTrailingSlash (strReplaceFirst s0 "/b1s/v1/Login" "") else s0
  if strIncludes s1 "/b1s/v1" then
    stripTrailingSlash (strReplaceFirst s1 "/b1s/v1" "") else s1

/-- `getConnectionKey` (session-manager lines 50-62): the cache key is
`server|companyDB|userName` — the password is not part of the key. -/
def getConnectionKey (settings : SAPB1Settings) : String :=
  normalizeServerUrl settings.sapServer ++ "|" ++ settings.companyDB ++ "|" ++ settings.userName

/-- `SessionCacheEntry` (session-manager lines 37-41). -/
structure SessionCacheEntry where
  sessionId : String
  expiresAt : Nat
  createdAt : Nat
deriving DecidableEq

/-- The in-memory `Map<connectionKey, SessionCacheEntry>` as a total lookup
function. -/
def SessionCache : Type := String → Option SessionCacheEntry

/-- `SESSION_EXPIRATION_TIME = 30 * 60 * 1000` (session-manager line 47). -/
def SESSION_EXPIRATION_TIME : Nat := 30 * 60 * 1000

/-- `getCachedSession` (session-manager lines 65-87): hit only when
`now < expiresAt`; an expired entry is deleted and `null` returned.  Returns
the result together with the possibly-updated cache. -/
def getCachedSessionM (settings : SAPB1Settings) (cache : SessionCache)
    (now : Nat) : Option String × SessionCache :=
  match cache (getConnectionKey settings) with
  | none => (none, cache)
  | some cached =>
    if cached.expiresAt ≤ now then
      (none, fun k => if k = getConnectionKey settings then none else cache k)
    else
      (some cached.sessionId, cache)

/-- `cacheSession` (session-manager lines 90-102): stores the session with
`createdAt = now` and `expiresAt = now + SESSION_EXPIRATION_TIME`. -/
def cacheSessionM (settings : SAPB1Settings) (sessionId : String)
    (cache : SessionCache) (now : Nat) : SessionCache :=
  fun k => if k = getConnectionKey settings then
      some { sessionId := sessionId, expiresAt := now + SESSION_EXPIRATION_TIME, createdAt := now }
    else cache k

/-- `removeSession` (session-manager lines 105-111). -/
def removeSessionM (settings : SAPB1Settings) (cache : SessionCache) : SessionCache :=
  fun k => if k = getConnectionKey settings then none else cache k

/-- Outcome of the network part of `loginToSAPB1` (route.ts lines 26-131):
either the HTTP POST throws / returns non-2xx (both reach the `catch`), or it
succeeds with `data.SessionId` present or absent. -/
inductive LoginNet where
  | failure
  | okSession (sid : String)
  | okNoSession
deriving DecidableEq

/-- The cache side of a network login (route.ts lines 107-131): on success a
session is cached; a forced login that yields no session removes the cached
one; a failed login removes the cached one.  The `Bool` records that the
network was used. -/
def doNetworkLogin (settings : SAPB1Settings) (forceNew : Bool)
    (cache : SessionCache) (now : Nat) (net : LoginNet) :
    Option String × SessionCache × Bool :=
  match net with
  | LoginNet.failure => (none, removeSessionM settings cache, true)
  | LoginNet.okSession sid => (some sid, cacheSessionM settings sid cache now, true)
  | LoginNet.okNoSession =>
    (none, if forceNew then removeSessionM settings cache else cache, true)

/-- `loginToSAPB1` (route.ts lines 16-132): unless `forceNew`, consult the
cache first and return a hit without any network call. -/
def loginToSAPB1M (settings : SAPB1Settings) (forceNew : Bool)
    (cache : SessionCache) (now : Nat) (net : LoginNet) :
    Option String × SessionCache × Bool :=
  if forceNew then doNetworkLogin settings forceNew cache now net
  else
    match getCachedSessionM settings cache now with
    | (some sid, cache1) => (some sid, cache1, false)
    | (none, cache1) => doNetworkLogin settings forceNew cache1 now net

/-! ## Query parameter clauses -/

/-- One `&`-separated clause of an OData query string.  `$top=N` is kept
structural because the code inspects it (`includes('$top=')`,
`replace(/\$top=\d+/, ...)`); every other clause is opaque text. -/
inductive QClause where
  | top (n : Nat)
  | skipP (n : Nat)
  | countTrue
  | inlinecountAllpages
  | filterOther (s : String)
deriving DecidableEq

/-- Embeds `filterParams.includes('$top=')` (note: on the empty string the
code short-circuits on falsiness, and an empty clause list has no `$top`
clause either). -/
def hasTopClause (fp : List QClause) : Bool :=
  fp.any fun c => match c with
    | QClause.top _ => true
    | _ => false

/-- The values of the `$top=` clauses of a parameter list, in order. -/
def topValues : List QClause → List Nat
  | [] => []
  | QClause.top n :: rest => n :: topValues rest
  | _ :: rest => topValues rest

/-- Embeds `replace(/\$top=\d+/, '$top=' + n)`: rewrite the value of the
first `$top=` clause only. -/
def replaceFirstTop : List QClause → Nat → List QClause
  | [], _ => []
  | QClause.top _ :: rest, n => QClause.top n :: rest
  | c :: rest, n => c :: replaceFirstTop rest n

/-- Page-request parameters of the `fetchAll` loop (route.ts lines 880-899):
always append `$skip`, `$count=true`, `$inlinecount=allpages`; append the
fetcher's own `$top=pageSize` only when the caller's filter has no explicit
`$top=` clause. -/
def buildPageParams (fp : List QClause) (skip pageSize : Nat) : List QClause :=
  if fp ≠ [] then
    if hasTopClause fp then
      fp ++ [QClause.skipP skip, QClause.countTrue, QClause.inlinecountAllpages]
    else
      fp ++ [QClause.skipP skip, QClause.top pageSize, QClause.countTrue,
             QClause.inlinecountAllpages]
  else
    [QClause.skipP skip, QClause.top pageSize, QClause.countTrue,
     QClause.inlinecountAllpages]

/-- Parameters of the non-paginated single request (route.ts lines 1045-1058):
the filter is used verbatim, with `$top=10000` appended when the filter has
no explicit `$top=` clause. -/
def singleRequestParams (fp : List QClause) : List QClause :=
  if hasTopClause fp then fp else fp ++ [QClause.top 10000]

/-- The `$top=50` rewriting of the `POST` handler's first attempt (route.ts
lines 1238-1250): append `$top=50` when absent, otherwise replace the
existing `$top=N` by `$top=50` unconditionally. -/
def limitFilterParams (fp : List QClause) : List QClause :=
  if fp ≠ [] then
    if ¬ hasTopClause fp then fp ++ [QClause.top 50]
    else replaceFirstTop fp 50
  else [QClause.top 50]

/-! ## The `fetchAll` pagination loop (route.ts lines 862-1042) -/

/-- One page of the upstream's JSON answer: the `value` row array (absent when
the response is not array-shaped) and the three count-field spellings the code
probes (`@odata.count`, `odata.count`, `count`), each a number or absent. -/
structure PageResponse (Row : Type) where
  value : Option (List Row)
  atOdataCount : Option Int
  odataCount : Option Int
  countField : Option Int

/-- Count extraction (route.ts lines 928-947): first non-null among
`@odata.count`, `odata.count`, `count`. -/
def extractCount {Row : Type} (p : PageResponse Row) : Option Int :=
  match p.atOdataCount with
  | some c => some c
  | none =>
    match p.odataCount with
    | some c => some c
    | none => p.countField

/-- The mutable locals of the `fetchAll` loop (route.ts lines 864-871). -/
structure FetchState (Row : Type) where
  allResults : List Row
  skip : Nat
  totalCountFromServer : Option Int
  consecutiveEmptyPages : Nat
  lastRecordsCount : Int
  sameCountStreak : Nat
deriving DecidableEq

/-- `allResults = [], skip = 0, totalCountFromServer = null,
consecutiveEmptyPages = 0, lastRecordsCount = -1, sameCountStreak = 0`. -/
def initialFetchState (Row : Type) : FetchState Row :=
  { allResults := [], skip := 0, totalCountFromServer := none,
    consecutiveEmptyPages := 0, lastRecordsCount := -1, sameCountStreak := 0 }

/-- Count-unknown heuristics (route.ts lines 963-1010): a page with records
resets the empty counter, tracks the same-count streak (log-only) and
advances `skip` by the records actually received; an empty page increments
`consecutiveEmptyPages`, stopping at 3 and otherwise retrying with
`skip += 20`.  Returns the updated state and the new `hasMore`. -/
def heuristicStep {Row : Type} (s : FetchState Row) (totalCount : Option Int)
    (allResults : List Row) (recordsReceived : Nat) : FetchState Row × Bool :=
  if 0 < recordsReceived then
    if (recordsReceived : Int) = s.lastRecordsCount then
      ({ allResults := allResults, skip := s.skip + recordsReceived,
         totalCountFromServer := totalCount, consecutiveEmptyPages := 0,
         lastRecordsCount := s.lastRecordsCount,
         sameCountStreak := s.sameCountStreak + 1 }, true)
    else
      ({ allResults := allResults, skip := s.skip + recordsReceived,
         totalCountFromServer := totalCount, consecutiveEmptyPages := 0,
         lastRecordsCount := (recordsReceived : Int),
         sameCountStreak := 0 }, true)
  else
    if 3 ≤ s.consecutiveEmptyPages + 1 then
      ({ allResults := allResults, skip := s.skip,
         totalCountFromServer := totalCount,
         consecutiveEmptyPages := s.consecutiveEmptyPages + 1,
         lastRecordsCount := s.lastRecordsCount,
         sameCountStreak := s.sameCountStreak }, false)
    else
      ({ allResults := allResults, skip := s.skip + 20,
         totalCountFromServer := totalCount,
         consecutiveEmptyPages := s.consecutiveEmptyPages + 1,
         lastRecordsCount := s.lastRecordsCount,
         sameCountStreak := s.sameCountStreak }, true)

/-- The count hint after a page (route.ts lines 928-947): recorded once, from
the first page whose response carries one; kept unchanged afterwards. -/
def updatedCount {Row : Type} (s : FetchState Row) (p : PageResponse Row) :
    Option Int :=
  match s.totalCountFromServer with
  | some t => some t
  | none => extractCount p

/-- The count-known rule (route.ts lines 952-962): stop when
`allResults.length >= totalCountFromServer`, otherwise advance `skip` by the
records actually received (default 20 on a zero-record page). -/
def countKnownStep {Row : Type} (s : FetchState Row) (rows : List Row)
    (t : Int) : FetchState Row × Bool :=
  if t ≤ (((s.allResults ++ rows).length : Nat) : Int) then
    ({ s with allResults := s.allResults ++ rows, totalCountFromServer := some t },
     false)
  else
    ({ s with
        allResults := s.allResults ++ rows
        totalCountFromServer := some t
        skip := s.skip + (if 0 < rows.length then rows.length else 20) },
     true)

/-- One loop body after a successful page request (route.ts lines 922-1015):
no `value` array stops pagination; otherwise the rows are appended, the count
hint is recorded once if available, and either the count-known rule (when the
recorded count is non-null and positive) or the count-unknown heuristics
decide `hasMore`. -/
def processPage {Row : Type} (s : FetchState Row) (p : PageResponse Row) :
    FetchState Row × Bool :=
  match p.value with
  | none => (s, false)
  | some rows =>
    match updatedCount s p with
    | some t =>
      if 0 < t then countKnownStep s rows t
      else heuristicStep s (some t) (s.allResults ++ rows) rows.length
    | none => heuristicStep s none (s.allResults ++ rows) rows.length

/-- Result of one `fetchAll` run.  The trace lists the `$skip` offsets of the
page requests actually issued, in order.  `cancelled` is the thrown
`'Request cancelled by user'`; `failed` a thrown request error; `fuelOut` is
an artifact of bounding the recursion and never arises with enough fuel. -/
inductive FetchOutcome (Row : Type) where
  | success (rows : List Row) (trace : List Nat)
  | cancelled (trace : List Nat)
  | failed (msg : String) (trace : List Nat)
  | fuelOut (rows : List Row) (trace : List Nat)
deriving DecidableEq

/-- Record one more issued request at the front of an outcome's trace. -/
def FetchOutcome.consTrace {Row : Type} (o : Nat) :
    FetchOutcome Row → FetchOutcome Row
  | FetchOutcome.success r t => FetchOutcome.success r (o :: t)
  | FetchOutcome.cancelled t => FetchOutcome.cancelled (o :: t)
  | FetchOutcome.failed m t => FetchOutcome.failed m (o :: t)
  | FetchOutcome.fuelOut r t => FetchOutcome.fuelOut r (o :: t)

/-- The `while (hasMore)` loop (route.ts lines 873-1031).  `upstream` answers
a page request at a given `$skip`; `abortObs n` is the value of
`abortSignal?.aborted` observable after `n` completed requests (the in-loop
checks before a request and after the previous one run in the same
synchronous block, so they see the same value).  After each page the safety
ceiling `skip >= 100000` forces `hasMore = false`. -/
def fetchPages {Row : Type} (upstream : Nat → Except String (PageResponse Row))
    (abortObs : Nat → Bool) :
    Nat → FetchState Row → Nat → FetchOutcome Row
  | 0, s, _ => FetchOutcome.fuelOut s.allResults []
  | fuel + 1, s, reqDone =>
    if abortObs reqDone then FetchOutcome.cancelled []
    else
      match upstream s.skip with
      | Except.error e => FetchOutcome.failed e [s.skip]
      | Except.ok page =>
        if abortObs (reqDone + 1) then FetchOutcome.cancelled [s.skip]
        else
          if (processPage s page).2 && decide ((processPage s page).1.skip < 100000) then
            FetchOutcome.consTrace s.skip
              (fetchPages upstream abortObs fuel (processPage s page).1 (reqDone + 1))
          else
            FetchOutcome.success (processPage s page).1.allResults [s.skip]

/-- A whole `fetchAll` run of `executeSAPB1Query` from the initial state. -/
def executeFetchAll {Row : Type} (upstream : Nat → Except String (PageResponse Row))
    (abortObs : Nat → Bool) (fuel : Nat) : FetchOutcome Row :=
  fetchPages upstream abortObs fuel (initialFetchState Row) 0

/-- The rows a given request offset contributes: the page's `value` array, or
nothing when the request fails or the response is not array-shaped. -/
def pageRows {Row : Type} (upstream : Nat → Except String (PageResponse Row))
    (o : Nat) : List Row :=
  match upstream o with
  | Except.ok p => p.value.getD []
  | Except.error _ => []

/-- Concatenation of a list of row lists. -/
def concatAll {α : Type} : List (List α) → List α
  | [] => []
  | l :: ls => l ++ concatAll ls

/-- The offset-advancement discipline between two consecutive page requests of
one run: the later offset is strictly larger, and when the earlier request
returned a non-empty `value` array the advance is exactly the number of rows
actually received. -/
def advancesProperly {Row : Type}
    (upstream : Nat → Except String (PageResponse Row)) (o1 o2 : Nat) : Prop :=
  o1 < o2 ∧ ∀ p rows, upstream o1 = Except.ok p → p.value = some rows →
    rows ≠ [] → o2 = o1 + rows.length

/-! ## The `POST` handler orchestration (route.ts lines 1159-1414) -/

/-- Outcome of one call to `executeSAPB1Query` as seen by the `POST` handler:
it either resolves, or throws with a message. -/
inductive FetchOut where
  | ok
  | thrown (msg : String)
deriving DecidableEq

/-- View a `fetchAll` run as what the `POST` handler catches: a cancelled run
is the thrown `Error('Request cancelled by user')`, a failed run the thrown
request error. -/
def toFetchOut {Row : Type} : FetchOutcome Row → FetchOut
  | FetchOutcome.success _ _ => FetchOut.ok
  | FetchOutcome.cancelled _ => FetchOut.thrown "Request cancelled by user"
  | FetchOutcome.failed m _ => FetchOut.thrown m
  | FetchOutcome.fuelOut _ _ => FetchOut.ok

/-- Auth-failure heuristic of the `POST` handler (route.ts lines 1272-1273). -/
def isAuthErrorMsg (m : String) : Bool :=
  strIncludes m "401" || strIncludes m "Unauthorized" ||
    strIncludes m "Session" || strIncludes m "authentication"

/-- Invalid-property heuristic of the `POST` handler (route.ts line 1307). -/
def isInvalidPropertyMsg (m : String) : Bool :=
  strIncludes m "invalid" || strIncludes m "Property"

/-- Observable actions of the `POST` handler: fetches issued (with their
filter parameters and their `fetchAll` mode), cache removals, forced
re-logins. -/
inductive PostEvent where
  | firstFetch (params : List QClause) (fetchAllMode : Bool)
  | sessionRemoved
  | forcedLogin
  | authRetryFetch (params : List QClause) (fetchAllMode : Bool)
  | itemsRetryFetch (params : List QClause) (fetchAllMode : Bool)
deriving DecidableEq

/-- An HTTP response of the `POST` handler (status and error message; the
successful payload is abstracted). -/
structure PostResponse where
  status : Nat
  message : String
deriving DecidableEq

/-- The oracles of one `POST` run, from step 3 on (resource name and filter
from the NL step, outcome of each potential fetch, the forced re-login
result, and the cancellation checks at the handler's two checkpoints). -/
structure PostInputs where
  objectName : String
  filterParams : List QClause
  abortedBeforeFetch : Bool
  firstOutcome : FetchOut
  abortedAfterFirst : Bool
  reloginResult : Option String
  retryOutcome : FetchOut
  itemsRetryOutcome : FetchOut

/-- Steps 3-6 of the `POST` handler (route.ts lines 1227-1331): first attempt
with the `$top=50`-rewritten filter in non-paginated mode; on a thrown error
matching the auth heuristic, remove the session, force one re-login and retry
once with the original filter in `fetchAll` mode; on an invalid-property
error for a non-empty `Items` query, retry once with the fixed `$top=50`
filter; otherwise surface the error.  Returns the response and the list of
observable actions. -/
def postHandler (inp : PostInputs) : PostResponse × List PostEvent :=
  if inp.abortedBeforeFetch then
    ({ status := 499, message := "Request cancelled by user" }, [])
  else
    let limited := limitFilterParams inp.filterParams
    let evts := [PostEvent.firstFetch limited false]
    match inp.firstOutcome with
    | FetchOut.ok =>
      if inp.abortedAfterFirst then
        ({ status := 499, message := "Request cancelled by user" }, evts)
      else
        ({ status := 200, message := "" }, evts)
    | FetchOut.thrown msg =>
      if isAuthErrorMsg msg then
        let evts := evts ++ [PostEvent.sessionRemoved, PostEvent.forcedLogin]
        match inp.reloginResult with
        | some _ =>
          let evts := evts ++ [PostEvent.authRetryFetch inp.filterParams true]
          match inp.retryOutcome with
          | FetchOut.ok => ({ status := 200, message := "" }, evts)
          | FetchOut.thrown e =>
            ({ status := 500,
               message := "Session expired and retry failed: " ++ e }, evts)
        | none =>
          ({ status := 401,
             message := "Session expired and failed to create new session. Please check your credentials." },
           evts)
      else
        if inp.objectName == "Items" && !inp.filterParams.isEmpty &&
            isInvalidPropertyMsg msg then
          let evts := evts ++ [PostEvent.itemsRetryFetch [QClause.top 50] true]
          match inp.itemsRetryOutcome with
          | FetchOut.ok => ({ status := 200, message := "" }, evts)
          | FetchOut.thrown e =>
            ({ status := 500, message := "Failed to execute query: " ++ e }, evts)
        else
          ({ status := 500, message := "Failed to execute query: " ++ msg }, evts)

/-- Is an event a forced re-login? -/
def isForcedLoginEvt : PostEvent → Bool
  | PostEvent.forcedLogin => true
  | _ => false

/-- Is an event the auth-path retry fetch? -/
def isAuthRetryEvt : PostEvent → Bool
  | PostEvent.authRetryFetch _ _ => true
  | _ => false

/-- Is an event the invalid-filter retry fetch? -/
def isItemsRetryEvt : PostEvent → Bool
  | PostEvent.itemsRetryFetch _ _ => true
  | _ => false

/-- The filter parameters of the first invalid-filter retry fetch, if any. -/
def itemsRetryParams : List PostEvent → Option (List QClause)
  | [] => none
  | PostEvent.itemsRetryFetch ps _ :: _ => some ps
  | _ :: rest => itemsRetryParams rest

/-! ## Concrete scenario inputs -/

/-- An abort signal that never fires. -/
def noAbort : Nat → Bool := fun _ => false

/-- A page response carrying `n` rows and, optionally, an `@odata.count`. -/
def mkPage (n : Nat) (count : Option Int) : PageResponse Unit :=
  { value := some (List.replicate n ()), atOdataCount := count,
    odataCount := none, countField := none }

/-- Upstream of the count-known scenario: reports `@odata.count = 237` and
serves pages of 100, 100, 37 rows at offsets 0, 100, 200, empty beyond. -/
def upstream237 : Nat → Except String (PageResponse Unit) := fun skip =>
  Except.ok (mkPage (if skip = 0 ∨ skip = 100 then 100 else if skip = 200 then 37 else 0)
    (some 237))

/-- Upstream of the count-unknown scenario: no count field, pages of 50 rows
at offsets 0, 50, 100, empty beyond. -/
def upstream150 : Nat → Except String (PageResponse Unit) := fun skip =>
  Except.ok (mkPage (if skip = 0 ∨ skip = 50 ∨ skip = 100 then 50 else 0) none)

/-- A filter carrying the caller's explicit `$top=10` row limit. -/
def filterTop10 : List QClause := [QClause.top 10]

/-- Upstream for the row-limit counterexample: no count field; honouring the
caller's `$top=10` carried by every page request, it serves at most 10 rows
per page and holds more than 10 matching rows in total (10 at offset 0, 10
at offset 10, empty beyond). -/
def upstreamTop10 : Nat → Except String (PageResponse Unit) := fun skip =>
  Except.ok (mkPage (if skip = 0 ∨ skip = 10 then 10 else 0) none)

/-- Upstream for the cancellation scenario: endless pages of 50 rows, no
count field. -/
def upstreamEndless : Nat → Except String (PageResponse Unit) := fun _ =>
  Except.ok (mkPage 50 none)

/-- An abort signal first observed aborted after one completed request,
i.e. between page 1 and page 2. -/
def abortAfterFirstPage : Nat → Bool := fun n => decide (0 < n)

/-- The `fetchAll` retry run of the cancellation scenario. -/
def cancelScenarioRun : FetchOutcome Unit :=
  fetchPages upstreamEndless abortAfterFirstPage 10 (initialFetchState Unit) 0

/-- `POST` oracles of the cancellation scenario: the first (non-paginated)
attempt throws a 401-style error, the forced re-login succeeds, and the
paginated retry is the run cancelled between its pages 1 and 2. -/
def cancelScenarioInputs : PostInputs :=
  { objectName := "Orders", filterParams := [],
    abortedBeforeFetch := false,
    firstOutcome := FetchOut.thrown "SAP B1 Query failed: 401 Unauthorized - Invalid session.",
    abortedAfterFirst := false,
    reloginResult := some "NewSession123",
    retryOutcome := toFetchOut cancelScenarioRun,
    itemsRetryOutcome := FetchOut.ok }

/-- `POST` oracles of the invalid-filter retry counterexample: an `Items`
query whose caller requested the explicit row limit `$top=10`, failing with
an invalid-property error. -/
def itemsScenarioInputs : PostInputs :=
  { objectName := "Items", filterParams := filterTop10,
    abortedBeforeFetch := false,
    firstOutcome := FetchOut.thrown "SAP B1 Query failed: 400 Bad Request - Property MinLevel of Item is invalid",
    abortedAfterFirst := false,
    reloginResult := none,
    retryOutcome := FetchOut.ok,
    itemsRetryOutcome := FetchOut.ok }

/-! ## Concrete inputs used by witnesses -/

/-- Loop state after two 100-row pages of the count-known scenario. -/
def c1WitnessState : FetchState Unit :=
  { allResults := List.replicate 200 (), skip := 200, totalCountFromServer := some 237,
    consecutiveEmptyPages := 0, lastRecordsCount := 100, sameCountStreak := 0 }

/-- The 37-row final page of the count-known scenario. -/
def c1WitnessPage : PageResponse Unit := mkPage 37 (some 237)

/-- Loop state after three 50-row pages and two empty pages of the
count-unknown scenario. -/
def c2WitnessState : FetchState Unit :=
  { allResults := List.replicate 150 (), skip := 190, totalCountFromServer := none,
    consecutiveEmptyPages := 2, lastRecordsCount := 50, sameCountStreak := 0 }

/-- A zero-row page without a count hint. -/
def c2WitnessPage : PageResponse Unit := mkPage 0 none

/-- Concrete connection settings. -/
def settingsA : SAPB1Settings :=
  { sapServer := "https://sap.example.com:50000/b1s/v1/", companyDB := "SBODEMO",
    userName := "manager", password := "alpha" }

/-- The same connection as `settingsA` with a different password. -/
def settingsB : SAPB1Settings :=
  { sapServer := "https://sap.example.com:50000/b1s/v1/", companyDB := "SBODEMO",
    userName := "manager", password := "bravo" }

/-- A cache with no entry. -/
def emptyCache : SessionCache := fun _ => none

/-- A cache holding one unexpired session under `settingsA`'s key. -/
def demoCache : SessionCache := fun k =>
  if k = getConnectionKey settingsA then
    some { sessionId := "CACHED1", expiresAt := 1800000, createdAt := 0 }
  else none

/-! ## Helper lemmas about the pagination loop -/

theorem heuristicStep_skip_lt {Row : Type} {s : FetchState Row} {tc : Option Int}
    {ar : List Row} {n : Nat} (h : (heuristicStep s tc ar n).2 = true) :
    s.skip < (heuristicStep s tc ar n).1.skip := by
  unfold heuristicStep at h ⊢
  by_cases hn : 0 < n
  · by_cases hc : (n : Int) = s.lastRecordsCount <;> simp [hn, hc]
  · by_cases hc : 3 ≤ s.consecutiveEmptyPages + 1
    · simp [hn, hc] at h
    · simp [hn, hc]

theorem countKnownStep_skip_lt {Row : Type} {s : FetchState Row} {rows : List Row}
    {t : Int} (h : (countKnownStep s rows t).2 = true) :
    s.skip < (countKnownStep s rows t).1.skip := by
  by_cases hc : t ≤ (s.allResults.length : Int) + (rows.length : Int)
  · simp [countKnownStep, hc] at h
  · simp [countKnownStep, hc]
    split <;> omega

theorem processPage_skip_lt {Row : Type} {s : FetchState Row} {p : PageResponse Row}
    (h : (processPage s p).2 = true) : s.skip < (processPage s p).1.skip := by
  rcases hv : p.value with _ | rows
  · simp [processPage, hv] at h
  · rcases hc : updatedCount s p with _ | t
    · exact (by simpa [processPage, hv, hc] using
        heuristicStep_skip_lt (by simpa [processPage, hv, hc] using h))
    · by_cases hpos : 0 < t
      · have h2 : (countKnownStep s rows t).2 = true := by
          simpa [processPage, hv, hc, hpos] using h
        simpa [processPage, hv, hc, hpos] using countKnownStep_skip_lt h2
      · have h2 : (heuristicStep s (some t) (s.allResults ++ rows) rows.length).2 = true := by
          simpa [processPage, hv, hc, hpos] using h
        simpa [processPage, hv, hc, hpos] using heuristicStep_skip_lt h2

theorem processPage_advance {Row : Type} {s : FetchState Row} {p : PageResponse Row}
    {rows : List Row} (hv : p.value = some rows) (hne : rows ≠ [])
    (h : (processPage s p).2 = true) :
    (processPage s p).1.skip = s.skip + rows.length := by
  have hn : 0 < rows.length := List.length_pos.mpr hne
  rcases hc : updatedCount s p with _ | t
  · by_cases he : (rows.length : Int) = s.lastRecordsCount <;>
      simp [processPage, hv, hc, heuristicStep, hn, he]
  · by_cases hpos : 0 < t
    · by_cases hle : t ≤ (s.allResults.length : Int) + (rows.length : Int)
      · simp [processPage, hv, hc, hpos, countKnownStep, hle] at h
      · simp [processPage, hv, hc, hpos, countKnownStep, hle, hn]
    · by_cases he : (rows.length : Int) = s.lastRecordsCount <;>
        simp [processPage, hv, hc, heuristicStep, hn, he, hpos]

theorem processPage_rows {Row : Type} (s : FetchState Row) (p : PageResponse Row) :
    (processPage s p).1.allResults = s.allResults ++ (p.value.getD []) := by
  rcases hv : p.value with _ | rows
  · simp [processPage, hv]
  · rcases hc : updatedCount s p with _ | t
    · by_cases he : (rows.length : Int) = s.lastRecordsCount <;>
        by_cases hn : 0 < rows.length <;>
        by_cases h3 : 3 ≤ s.consecutiveEmptyPages + 1 <;>
        simp [processPage, hv, hc, heuristicStep, he, hn, h3]
    · by_cases hpos : 0 < t
      · by_cases hle : t ≤ (s.allResults.length : Int) + (rows.length : Int) <;>
          simp [processPage, hv, hc, hpos, countKnownStep, hle]
      · by_cases he : (rows.length : Int) = s.lastRecordsCount <;>
          by_cases hn : 0 < rows.length <;>
          by_cases h3 : 3 ≤ s.consecutiveEmptyPages + 1 <;>
          simp [processPage, hv, hc, heuristicStep, he, hn, h3, hpos]

theorem fetchPages_success_inv {Row : Type}
    (u : Nat → Except String (PageResponse Row)) (a : Nat → Bool) :
    ∀ (fuel : Nat) (s : FetchState Row) (r : Nat) {rows : List Row} {tr : List Nat},
      fetchPages u a fuel s r = FetchOutcome.success rows tr →
      tr.head? = some s.skip ∧ List.Chain' (advancesProperly u) tr ∧
        List.Pairwise (· < ·) tr ∧ ∀ o ∈ tr, s.skip ≤ o := by
  intro fuel
  induction fuel with
  | zero =>
    intro s r rows tr h
    simp [fetchPages] at h
  | succ fuel ih =>
    intro s r rows tr h
    rw [fetchPages] at h
    by_cases h0 : a r = true
    · rw [if_pos h0] at h
      exact absurd h (by simp)
    · rw [if_neg h0] at h
      rcases hu : u s.skip with e | page
      · rw [hu] at h
        exact absurd h (by simp)
      · rw [hu] at h
        simp only [] at h
        by_cases h1 : a (r + 1) = true
        · rw [if_pos h1] at h
          exact absurd h (by simp)
        · rw [if_neg h1] at h
          by_cases hm : ((processPage s page).2 &&
              decide ((processPage s page).1.skip < 100000)) = true
          · rw [if_pos hm] at h
            have hm1 : (processPage s page).2 = true := by
              simp only [Bool.and_eq_true] at hm
              exact hm.1
            cases hrec : fetchPages u a fuel (processPage s page).1 (r + 1) with
            | cancelled t2 =>
              rw [hrec] at h; exact absurd h (by simp [FetchOutcome.consTrace])
            | failed m t2 =>
              rw [hrec] at h; exact absurd h (by simp [FetchOutcome.consTrace])
            | fuelOut r2 t2 =>
              rw [hrec] at h; exact absurd h (by simp [FetchOutcome.consTrace])
            | success r2 t2 =>
              rw [hrec] at h
              simp only [FetchOutcome.consTrace] at h
              obtain ⟨hr2, htr⟩ : r2 = rows ∧ s.skip :: t2 = tr := by
                injection h with ha hb; exact ⟨ha, hb⟩
              subst hr2
              subst htr
              obtain ⟨ihh, ihc, ihp, ihb⟩ := ih (processPage s page).1 (r + 1) hrec
              have hlt : s.skip < (processPage s page).1.skip := processPage_skip_lt hm1
              refine ⟨rfl, ?_, ?_, ?_⟩
              · cases t2 with
                | nil => simp
                | cons o t3 =>
                  have ho : o = (processPage s page).1.skip := by
                    simpa using ihh
                  refine List.Chain'.cons ?_ ihc
                  refine ⟨by omega, ?_⟩
                  intro q qrows hq hqv hqne
                  rw [hu] at hq
                  injection hq with hq
                  subst hq
                  rw [ho]
                  exact processPage_advance hqv hqne hm1
              · refine List.pairwise_cons.mpr ⟨?_, ihp⟩
                intro b hb
                have := ihb b hb
                omega
              · intro o ho
                rcases List.mem_cons.mp ho with h | h
                · omega
                · have := ihb o h
                  omega
          · rw [if_neg hm] at h
            injection h with hrows htr
            subst htr
            refine ⟨rfl, by simp, by simp, by simp⟩

theorem fetchPages_success_rows {Row : Type}
    (u : Nat → Except String (PageResponse Row)) (a : Nat → Bool) :
    ∀ (fuel : Nat) (s : FetchState Row) (r : Nat) {rows : List Row} {tr : List Nat},
      fetchPages u a fuel s r = FetchOutcome.success rows tr →
      rows = s.allResults ++ concatAll (tr.map (pageRows u)) := by
  intro fuel
  induction fuel with
  | zero =>
    intro s r rows tr h
    simp [fetchPages] at h
  | succ fuel ih =>
    intro s r rows tr h
    rw [fetchPages] at h
    by_cases h0 : a r = true
    · rw [if_pos h0] at h
      exact absurd h (by simp)
    · rw [if_neg h0] at h
      rcases hu : u s.skip with e | page
      · rw [hu] at h
        exact absurd h (by simp)
      · rw [hu] at h
        simp only [] at h
        by_cases h1 : a (r + 1) = true
        · rw [if_pos h1] at h
          exact absurd h (by simp)
        · rw [if_neg h1] at h
          by_cases hm : ((processPage s page).2 &&
              decide ((processPage s page).1.skip < 100000)) = true
          · rw [if_pos hm] at h
            cases hrec : fetchPages u a fuel (processPage s page).1 (r + 1) with
            | cancelled t2 =>
              rw [hrec] at h; exact absurd h (by simp [FetchOutcome.consTrace])
            | failed m t2 =>
              rw [hrec] at h; exact absurd h (by simp [FetchOutcome.consTrace])
            | fuelOut r2 t2 =>
              rw [hrec] at h; exact absurd h (by simp [FetchOutcome.consTrace])
            | success r2 t2 =>
              rw [hrec] at h
              simp only [FetchOutcome.consTrace] at h
              obtain ⟨hr2, htr⟩ : r2 = rows ∧ s.skip :: t2 = tr := by
                injection h with ha hb; exact ⟨ha, hb⟩
              subst hr2
              subst htr
              have hrows := ih (processPage s page).1 (r + 1) hrec
              rw [hrows, processPage_rows]
              simp [concatAll, pageRows, hu, List.append_assoc]
          · rw [if_neg hm] at h
            obtain ⟨hr2, htr⟩ : (processPage s page).1.allResults = rows ∧ [s.skip] = tr := by
              injection h with ha hb; exact ⟨ha, hb⟩
            subst hr2
            subst htr
            rw [processPage_rows]
            simp [concatAll, pageRows, hu]

/-! ## Helper lemmas about query parameter clauses -/

theorem hasTopClause_of_mem {l : List QClause} {n : Nat} (h : QClause.top n ∈ l) :
    hasTopClause l = true := by
  unfold hasTopClause
  exact List.any_eq_true.mpr ⟨_, h, rfl⟩

theorem replaceFirstTop_mem {fp : List QClause} (h : hasTopClause fp = true) (n : Nat) :
    QClause.top n ∈ replaceFirstTop fp n := by
  induction fp with
  | nil => simp [hasTopClause] at h
  | cons c rest ih =>
    cases c with
    | top m => simp [replaceFirstTop]
    | skipP m =>
      simp [replaceFirstTop]
      exact ih (by simpa [hasTopClause] using h)
    | countTrue =>
      simp [replaceFirstTop]
      exact ih (by simpa [hasTopClause] using h)
    | inlinecountAllpages =>
      simp [replaceFirstTop]
      exact ih (by simpa [hasTopClause] using h)
    | filterOther s =>
      simp [replaceFirstTop]
      exact ih (by simpa [hasTopClause] using h)

theorem topValues_append (l1 l2 : List QClause) :
    topValues (l1 ++ l2) = topValues l1 ++ topValues l2 := by
  induction l1 with
  | nil => rfl
  | cons c rest ih => cases c <;> simp [topValues, ih]

theorem topValues_nil_of_not_hasTop {l : List QClause} (h : hasTopClause l = false) :
    topValues l = [] := by
  induction l with
  | nil => rfl
  | cons c rest ih =>
    cases c <;> simp [hasTopClause] at h <;> simp [topValues] <;>
      exact ih (by simpa [hasTopClause] using h)

theorem topValues_ne_nil_of_hasTop {l : List QClause} (h : hasTopClause l = true) :
    topValues l ≠ [] := by
  induction l with
  | nil => simp [hasTopClause] at h
  | cons c rest ih =>
    cases c with
    | top m => simp [topValues]
    | skipP m =>
      simp only [topValues]
      exact ih (by simpa [hasTopClause] using h)
    | countTrue =>
      simp only [topValues]
      exact ih (by simpa [hasTopClause] using h)
    | inlinecountAllpages =>
      simp only [topValues]
      exact ih (by simpa [hasTopClause] using h)
    | filterOther s =>
      simp only [topValues]
      exact ih (by simpa [hasTopClause] using h)

theorem topValues_replaceFirstTop {l : List QClause} {m : Nat}
    (h : topValues l = [m]) (n : Nat) :
    topValues (replaceFirstTop l n) = [n] := by
  induction l with
  | nil => simp [topValues] at h
  | cons c rest ih =>
    cases c with
    | top k =>
      simp [topValues] at h
      simp [replaceFirstTop, topValues, h.2]
    | skipP k =>
      simp only [topValues] at h
      simp only [replaceFirstTop, topValues]
      exact ih h
    | countTrue =>
      simp only [topValues] at h
      simp only [replaceFirstTop, topValues]
      exact ih h
    | inlinecountAllpages =>
      simp only [topValues] at h
      simp only [replaceFirstTop, topValues]
      exact ih h
    | filterOther s =>
      simp only [topValues] at h
      simp only [replaceFirstTop, topValues]
      exact ih h

theorem limitFilterParams_mem (fp : List QClause) :
    QClause.top 50 ∈ limitFilterParams fp := by
  unfold limitFilterParams
  by_cases hne : fp ≠ []
  · rw [if_pos hne]
    by_cases ht : hasTopClause fp = true
    · simp [ht]
      exact replaceFirstTop_mem ht 50
    · simp [ht]
  · rw [if_neg hne]
    simp

/-! ## Claim theorems -/

set_option maxRecDepth 8000

/-- C1.  Pagination completeness with a known count: against an upstream that
reports `@odata.count = 237` and serves pages of 100, 100, 37 rows, the
`fetchAll` loop returns exactly 237 rows and stops after the 37-row page,
issuing exactly the three requests at offsets 0, 100, 200 and no fourth one;
and in general, once a non-null positive total count is recorded, the
count-known branch stops pagination exactly when the accumulated rows reach
or exceed that total. -/
theorem c1_count_known_pagination :
    (∃ rows : List Unit, executeFetchAll upstream237 noAbort 10 =
        FetchOutcome.success rows [0, 100, 200] ∧ rows.length = 237) ∧
    (∀ (Row : Type) (s : FetchState Row) (p : PageResponse Row) (rows : List Row)
        (t : Int), s.totalCountFromServer = some t → 0 < t → p.value = some rows →
        ((processPage s p).2 = false ↔
          t ≤ ((s.allResults.length + rows.length : Nat) : Int))) := by
  constructor
  · exact ⟨List.replicate 237 (), by decide, by decide⟩
  · intro Row s p rows t hc ht hv
    have hu : updatedCount s p = some t := by simp [updatedCount, hc]
    have hcast : ((s.allResults.length + rows.length : Nat) : Int) =
        (s.allResults.length : Int) + (rows.length : Int) := by push_cast; rfl
    rw [hcast]
    by_cases hle : t ≤ (s.allResults.length : Int) + (rows.length : Int)
    · simp [processPage, hv, hu, ht, countKnownStep, hle]
    · simp [processPage, hv, hu, ht, countKnownStep, hle]

/-- Witness for C1's general part, at the loop state after two 100-row pages
of the 237-row scenario receiving the final 37-row page. -/
theorem c1_count_known_pagination_witness :
    (processPage c1WitnessState c1WitnessPage).2 = false ↔
      (237 : Int) ≤ ((200 + 37 : Nat) : Int) := by
  have h := c1_count_known_pagination.2 Unit c1WitnessState c1WitnessPage
    (List.replicate 37 ()) 237 rfl (by decide) rfl
  simpa [c1WitnessState] using h

/-- C2.  Pagination completeness without a count hint: against an upstream
with no count field serving pages of 50, 50, 50, 0, 0, 0, the `fetchAll`
loop returns exactly 150 rows and stops only after the third consecutive
empty page (six requests in total; the first two empty pages are retried);
and in general, in count-unknown mode a zero-row page ends pagination exactly
when it is the third consecutive one, the earlier empty pages being retried
at an offset advanced by 20. -/
theorem c2_count_unknown_pagination :
    (∃ rows : List Unit, executeFetchAll upstream150 noAbort 10 =
        FetchOutcome.success rows [0, 50, 100, 150, 170, 190] ∧ rows.length = 150) ∧
    (∀ (Row : Type) (s : FetchState Row) (p : PageResponse Row),
        s.totalCountFromServer = none → extractCount p = none →
        p.value = some ([] : List Row) →
        (((processPage s p).2 = false ↔ 3 ≤ s.consecutiveEmptyPages + 1) ∧
          ((processPage s p).2 = true → (processPage s p).1.skip = s.skip + 20))) := by
  constructor
  · exact ⟨List.replicate 150 (), by decide, by decide⟩
  · intro Row s p hc he hv
    have hu : updatedCount s p = none := by simp [updatedCount, hc, he]
    by_cases h3 : 3 ≤ s.consecutiveEmptyPages + 1 <;>
      simp [processPage, hv, hu, heuristicStep, h3]

/-- Witness for C2's general part, at the loop state of the 150-row scenario
receiving its third consecutive empty page. -/
theorem c2_count_unknown_pagination_witness :
    ((processPage c2WitnessState c2WitnessPage).2 = false ↔ 3 ≤ 2 + 1) ∧
      ((processPage c2WitnessState c2WitnessPage).2 = true →
        (processPage c2WitnessState c2WitnessPage).1.skip = 190 + 20) := by
  have h := c2_count_unknown_pagination.2 Unit c2WitnessState c2WitnessPage rfl rfl rfl
  simpa [c2WitnessState] using h

/-- C3.  Offset advancement: in every successful `fetchAll` run, consecutive
page requests advance the `$skip` offset strictly, and when a page returned a
non-empty row array the next offset is the previous one plus exactly the
number of rows actually received (never the nominal page size); consequently
no offset is ever requested twice. -/
theorem c3_offset_advancement {Row : Type}
    (u : Nat → Except String (PageResponse Row)) (a : Nat → Bool)
    (fuel : Nat) (rows : List Row) (tr : List Nat)
    (h : executeFetchAll u a fuel = FetchOutcome.success rows tr) :
    List.Chain' (advancesProperly u) tr ∧ tr.Nodup := by
  obtain ⟨-, hc, hp, -⟩ := fetchPages_success_inv u a fuel (initialFetchState Row) 0 h
  exact ⟨hc, hp.imp fun hlt => Nat.ne_of_lt hlt⟩

/-- Witness for C3 on the count-unknown scenario run. -/
theorem c3_offset_advancement_witness :
    List.Chain' (advancesProperly upstream150) [0, 50, 100, 150, 170, 190] ∧
      List.Nodup ([0, 50, 100, 150, 170, 190] : List Nat) :=
  c3_offset_advancement upstream150 noAbort 10 (List.replicate 150 ())
    [0, 50, 100, 150, 170, 190] (by decide)

/-- C4 counterexample.  The claim says that with an explicit `$top=10` row
limit in the filter the fetcher returns at most 10 rows and fetches at most
one page.  In the code, an explicit `$top=` clause only suppresses the
fetcher's own `$top` on each page request; accumulation is not capped.
Against an upstream holding more than 10 matching rows that honours the
caller's `$top=10` per request (pages of 10, 10, then empty) and reports no
count, the `fetchAll` loop returns 20 rows over 5 page requests. -/
theorem c4_row_limit_counterexample :
    hasTopClause filterTop10 = true ∧ topValues filterTop10 = [10] ∧
    buildPageParams filterTop10 0 1000 =
      [QClause.top 10, QClause.skipP 0, QClause.countTrue,
       QClause.inlinecountAllpages] ∧
    executeFetchAll upstreamTop10 noAbort 10 =
      FetchOutcome.success (List.replicate 20 ()) [0, 10, 20, 40, 60] ∧
    ¬ ((List.replicate 20 ()).length ≤ 10) ∧
    ¬ (([0, 10, 20, 40, 60] : List Nat).length ≤ 1) := by
  refine ⟨by decide, by decide, by decide, by decide, by decide, by decide⟩

/-- C4 amended.  When the filter parameters carry an explicit `$top=` clause,
the fetcher adds no `$top` of its own to page requests (each page carries
only the caller's limit clause plus `$skip` and the count parameters), but it
does not itself cap accumulation: every successful `fetchAll` run returns all
rows received across all issued pages, so the row count is bounded only by
what the upstream serves per page, not by the caller's limit. -/
theorem c4_row_limit_amended :
    (∀ (fp : List QClause) (skip pageSize : Nat), hasTopClause fp = true →
        buildPageParams fp skip pageSize =
          fp ++ [QClause.skipP skip, QClause.countTrue,
                 QClause.inlinecountAllpages]) ∧
    (∀ (Row : Type) (u : Nat → Except String (PageResponse Row)) (a : Nat → Bool)
        (fuel r : Nat) (s : FetchState Row) (rows : List Row) (tr : List Nat),
        fetchPages u a fuel s r = FetchOutcome.success rows tr →
        rows = s.allResults ++ concatAll (tr.map (pageRows u))) := by
  constructor
  · intro fp skip pageSize ht
    have hne : fp ≠ [] := by
      intro hfp
      subst hfp
      simp [hasTopClause] at ht
    unfold buildPageParams
    rw [if_pos hne, if_pos ht]
  · intro Row u a fuel r s rows tr h
    exact fetchPages_success_rows u a fuel s r h

/-- Witness for C4's amended claim on the `$top=10` scenario. -/
theorem c4_row_limit_amended_witness :
    buildPageParams filterTop10 3 1000 =
      filterTop10 ++ [QClause.skipP 3, QClause.countTrue,
                      QClause.inlinecountAllpages] ∧
    List.replicate 20 () = (initialFetchState Unit).allResults ++
      concatAll (([0, 10, 20, 40, 60] : List Nat).map (pageRows upstreamTop10)) := by
  constructor
  · exact c4_row_limit_amended.1 filterTop10 3 1000 (by decide)
  · exact c4_row_limit_amended.2 Unit upstreamTop10 noAbort 10 0
      (initialFetchState Unit) (List.replicate 20 ()) [0, 10, 20, 40, 60] (by decide)

/-- C5.  A cancellation observed between page 1 and page 2 of a `fetchAll`
run does stop the loop before page 2's request is ever issued (the trace of
the cancelled run is `[0]` alone).  But the outcome surfaced by the `POST`
handler is not a distinct Cancelled response: the loop's thrown
`'Request cancelled by user'` is caught by the generic error path and
returned as an HTTP 500 query failure, unlike the handler's own cancellation
checkpoints which answer 499 — the claim's second half names the intended
behaviour, and the code's generic wrapping of the cancellation error is the
slip this theorem evaluates. -/
theorem c5_cancellation_code_bug :
    cancelScenarioRun = FetchOutcome.cancelled [0] ∧
    toFetchOut cancelScenarioRun = FetchOut.thrown "Request cancelled by user" ∧
    (postHandler cancelScenarioInputs).1 =
      { status := 500,
        message := "Session expired and retry failed: Request cancelled by user" } ∧
    (postHandler cancelScenarioInputs).1 ≠
      { status := 499, message := "Request cancelled by user" } := by
  refine ⟨by decide, by decide, by decide, by decide⟩

/-- C6.  Auth-failure retry: whatever the oracles, the `POST` handler
performs at most one forced re-login and at most one auth-path retry fetch;
when the first fetch throws a message matching the auth heuristic, the
cached session is removed and exactly one forced re-login happens; a missing
new session yields the 401 response, and a failure of the single retried
fetch is surfaced as the final 500 error with no further login or fetch. -/
theorem c6_auth_retry_single :
    ∀ inp : PostInputs,
      ((postHandler inp).2.countP isForcedLoginEvt ≤ 1) ∧
      ((postHandler inp).2.countP isAuthRetryEvt ≤ 1) ∧
      (∀ m, inp.firstOutcome = FetchOut.thrown m → isAuthErrorMsg m = true →
        inp.abortedBeforeFetch = false →
        PostEvent.sessionRemoved ∈ (postHandler inp).2 ∧
        (postHandler inp).2.countP isForcedLoginEvt = 1 ∧
        (inp.reloginResult = none → (postHandler inp).1.status = 401) ∧
        (∀ sid e, inp.reloginResult = some sid → inp.retryOutcome = FetchOut.thrown e →
          (postHandler inp).2.countP isAuthRetryEvt = 1 ∧
          (postHandler inp).1 =
            { status := 500, message := "Session expired and retry failed: " ++ e })) := by
  intro inp
  obtain ⟨obn, fp, ab0, f1, ab1, rl, rt, irt⟩ := inp
  cases ab0 with
  | true =>
    refine ⟨by simp [postHandler], by simp [postHandler], ?_⟩
    intro m hm hA hab
    simp at hab
  | false =>
    cases f1 with
    | ok =>
      refine ⟨?_, ?_, ?_⟩
      · cases ab1 <;>
          simp [postHandler, List.countP_cons, List.countP_nil, isForcedLoginEvt]
      · cases ab1 <;>
          simp [postHandler, List.countP_cons, List.countP_nil, isAuthRetryEvt]
      · intro m hm hA hab
        simp at hm
    | thrown m =>
      by_cases hA : isAuthErrorMsg m = true
      · cases rl with
        | none =>
          refine ⟨by simp [postHandler, hA, List.countP_cons, List.countP_nil,
                          isForcedLoginEvt],
                  by simp [postHandler, hA, List.countP_cons, List.countP_nil,
                          isAuthRetryEvt], ?_⟩
          intro m2 hm2 hA2 hab
          obtain rfl : m = m2 := by injection hm2
          refine ⟨by simp [postHandler, hA],
                  by simp [postHandler, hA, List.countP_cons, List.countP_nil,
                          isForcedLoginEvt],
                  by intro _; simp [postHandler, hA], ?_⟩
          intro sid e hrl
          simp at hrl
        | some sid0 =>
          cases rt with
          | ok =>
            refine ⟨by simp [postHandler, hA, List.countP_cons, List.countP_nil,
                            isForcedLoginEvt],
                    by simp [postHandler, hA, List.countP_cons, List.countP_nil,
                            isAuthRetryEvt], ?_⟩
            intro m2 hm2 hA2 hab
            obtain rfl : m = m2 := by injection hm2
            refine ⟨by simp [postHandler, hA],
                    by simp [postHandler, hA, List.countP_cons, List.countP_nil,
                            isForcedLoginEvt],
                    by intro hrl; simp at hrl, ?_⟩
            intro sid e hrl hrt
            simp at hrt
          | thrown e0 =>
            refine ⟨by simp [postHandler, hA, List.countP_cons, List.countP_nil,
                            isForcedLoginEvt],
                    by simp [postHandler, hA, List.countP_cons, List.countP_nil,
                            isAuthRetryEvt], ?_⟩
            intro m2 hm2 hA2 hab
            obtain rfl : m = m2 := by injection hm2
            refine ⟨by simp [postHandler, hA],
                    by simp [postHandler, hA, List.countP_cons, List.countP_nil,
                            isForcedLoginEvt],
                    by intro hrl; simp at hrl, ?_⟩
            intro sid e hrl hrt
            obtain rfl : e0 = e := by injection hrt
            refine ⟨by simp [postHandler, hA, List.countP_cons, List.countP_nil,
                            isAuthRetryEvt],
                    by simp [postHandler, hA]⟩
      · by_cases hI : (obn == "Items" && !fp.isEmpty && isInvalidPropertyMsg m) = true
        · cases irt with
          | ok =>
            refine ⟨by simp [postHandler, hA, hI, List.countP_cons, List.countP_nil,
                            isForcedLoginEvt],
                    by simp [postHandler, hA, hI, List.countP_cons, List.countP_nil,
                            isAuthRetryEvt], ?_⟩
            intro m2 hm2 hA2 hab
            obtain rfl : m = m2 := by injection hm2
            exact absurd hA2 hA
          | thrown e0 =>
            refine ⟨by simp [postHandler, hA, hI, List.countP_cons, List.countP_nil,
                            isForcedLoginEvt],
                    by simp [postHandler, hA, hI, List.countP_cons, List.countP_nil,
                            isAuthRetryEvt], ?_⟩
            intro m2 hm2 hA2 hab
            obtain rfl : m = m2 := by injection hm2
            exact absurd hA2 hA
        · refine ⟨by simp [postHandler, hA, hI, List.countP_cons, List.countP_nil,
                          isForcedLoginEvt],
                  by simp [postHandler, hA, hI, List.countP_cons, List.countP_nil,
                          isAuthRetryEvt], ?_⟩
          intro m2 hm2 hA2 hab
          obtain rfl : m = m2 := by injection hm2
          exact absurd hA2 hA

/-- Witness for C6 on the cancellation scenario's auth-retry run. -/
theorem c6_auth_retry_single_witness :
    (postHandler cancelScenarioInputs).2.countP isForcedLoginEvt = 1 ∧
    (postHandler cancelScenarioInputs).2.countP isAuthRetryEvt = 1 ∧
    (postHandler cancelScenarioInputs).1 =
      { status := 500,
        message := "Session expired and retry failed: " ++
          "Request cancelled by user" } := by
  have h := (c6_auth_retry_single cancelScenarioInputs).2.2
    "SAP B1 Query failed: 401 Unauthorized - Invalid session." rfl (by decide) rfl
  have h2 := h.2.2.2 "NewSession123" "Request cancelled by user" rfl (by decide)
  exact ⟨h.2.1, h2.1, h2.2⟩

/-- C7.  Session cache semantics: `cacheSession` stores the token with
`expiresAt = createdAt + 30 minutes`; `getCachedSession` yields the token
exactly when the current time is strictly before `expiresAt`, and an expired
entry is deleted with absent returned; hence a non-forced login strictly
within 30 minutes of caching reuses the token with no network call, while at
or past the 30-minute mark the cached session counts as absent and a fresh
network login is performed. -/
theorem c7_session_cache_expiry :
    (∀ (settings : SAPB1Settings) (sid : String) (cache : SessionCache) (t0 : Nat),
        (cacheSessionM settings sid cache t0) (getConnectionKey settings) =
          some { sessionId := sid, expiresAt := t0 + SESSION_EXPIRATION_TIME,
                 createdAt := t0 } ∧
        t0 + SESSION_EXPIRATION_TIME = t0 + 30 * 60 * 1000) ∧
    (∀ (settings : SAPB1Settings) (cache : SessionCache) (now : Nat) (tok : String),
        (getCachedSessionM settings cache now).1 = some tok ↔
          ∃ e : SessionCacheEntry, cache (getConnectionKey settings) = some e ∧
            now < e.expiresAt ∧ e.sessionId = tok) ∧
    (∀ (settings : SAPB1Settings) (cache : SessionCache) (now : Nat)
        (e : SessionCacheEntry),
        cache (getConnectionKey settings) = some e → e.expiresAt ≤ now →
        (getCachedSessionM settings cache now).1 = none ∧
        (getCachedSessionM settings cache now).2 (getConnectionKey settings) = none) ∧
    (∀ (settings : SAPB1Settings) (sid : String) (cache : SessionCache) (t0 t1 : Nat)
        (net : LoginNet), t1 < t0 + SESSION_EXPIRATION_TIME →
        loginToSAPB1M settings false (cacheSessionM settings sid cache t0) t1 net =
          (some sid, cacheSessionM settings sid cache t0, false)) ∧
    (∀ (settings : SAPB1Settings) (sid : String) (cache : SessionCache) (t0 t1 : Nat)
        (net : LoginNet), t0 + SESSION_EXPIRATION_TIME ≤ t1 →
        (loginToSAPB1M settings false (cacheSessionM settings sid cache t0) t1 net).2.2 =
          true) := by
  refine ⟨?_, ?_, ?_, ?_, ?_⟩
  · intro settings sid cache t0
    exact ⟨by simp [cacheSessionM], rfl⟩
  · intro settings cache now tok
    rcases hcc : cache (getConnectionKey settings) with _ | e
    · simp [getCachedSessionM, hcc]
    · by_cases hex : e.expiresAt ≤ now
      · simp only [getCachedSessionM, hcc]
        rw [if_pos hex]
        constructor
        · intro h
          exact absurd h (by simp)
        · rintro ⟨e2, he2, hlt, -⟩
          injection he2 with he2
          subst he2
          omega
      · simp only [getCachedSessionM, hcc]
        rw [if_neg hex]
        constructor
        · intro h
          injection h with h2
          exact ⟨e, rfl, by omega, h2⟩
        · rintro ⟨e2, he2, hlt, htok⟩
          injection he2 with he2
          subst he2
          rw [htok]
  · intro settings cache now e hcc hex
    simp [getCachedSessionM, hcc, hex]
  · intro settings sid cache t0 t1 net hlt
    have hhit : (cacheSessionM settings sid cache t0) (getConnectionKey settings) =
        some { sessionId := sid, expiresAt := t0 + SESSION_EXPIRATION_TIME,
               createdAt := t0 } := by
      simp [cacheSessionM]
    have hn : ¬ (t0 + SESSION_EXPIRATION_TIME ≤ t1) := by omega
    have hget : getCachedSessionM settings (cacheSessionM settings sid cache t0) t1 =
        (some sid, cacheSessionM settings sid cache t0) := by
      simp [getCachedSessionM, hhit, hn]
    simp [loginToSAPB1M, hget]
  · intro settings sid cache t0 t1 net hle
    have hhit : (cacheSessionM settings sid cache t0) (getConnectionKey settings) =
        some { sessionId := sid, expiresAt := t0 + SESSION_EXPIRATION_TIME,
               createdAt := t0 } := by
      simp [cacheSessionM]
    have h1 : (getCachedSessionM settings (cacheSessionM settings sid cache t0) t1).1 =
        none := by
      simp [getCachedSessionM, hhit, hle]
    rcases hg : getCachedSessionM settings (cacheSessionM settings sid cache t0) t1 with
      ⟨r, c2⟩
    rw [hg] at h1
    simp at h1
    subst h1
    cases net <;> simp [loginToSAPB1M, hg, doNetworkLogin]

/-- Witness for C7 at concrete settings: a session cached at time 1000 is
reused without network at time 500000 (within 30 minutes) and forces a
network login at time 1000 + 30 minutes. -/
theorem c7_session_cache_expiry_witness :
    (cacheSessionM settingsA "SID42" emptyCache 1000) (getConnectionKey settingsA) =
      some { sessionId := "SID42", expiresAt := 1000 + SESSION_EXPIRATION_TIME,
             createdAt := 1000 } ∧
    loginToSAPB1M settingsA false (cacheSessionM settingsA "SID42" emptyCache 1000)
        500000 LoginNet.failure =
      (some "SID42", cacheSessionM settingsA "SID42" emptyCache 1000, false) ∧
    (loginToSAPB1M settingsA false (cacheSessionM settingsA "SID42" emptyCache 1000)
        (1000 + SESSION_EXPIRATION_TIME) LoginNet.failure).2.2 = true := by
  refine ⟨(c7_session_cache_expiry.1 settingsA "SID42" emptyCache 1000).1,
          c7_session_cache_expiry.2.2.2.1 settingsA "SID42" emptyCache 1000 500000
            LoginNet.failure (by decide),
          c7_session_cache_expiry.2.2.2.2 settingsA "SID42" emptyCache 1000
            (1000 + SESSION_EXPIRATION_TIME) LoginNet.failure (by omega)⟩

/-- C8 counterexample.  The claim says the invalid-filter retry preserves any
explicit row-limit the caller requested.  With an `Items` query whose caller
requested `$top=10`, failing with an invalid-property error, the retried
request carries the fixed `$top=50`, not the caller's limit of 10. -/
theorem c8_filter_retry_counterexample :
    topValues itemsScenarioInputs.filterParams = [10] ∧
    itemsRetryParams (postHandler itemsScenarioInputs).2 = some [QClause.top 50] ∧
    topValues [QClause.top 50] = [50] ∧
    ¬ topValues [QClause.top 50] = topValues itemsScenarioInputs.filterParams := by
  refine ⟨by decide, by decide, by decide, by decide⟩

/-- C8 amended.  The invalid-filter retry applies only when the resource is
`Items`, a non-empty filter was used and the thrown message (not already
classified as an auth error) matches the invalid-property heuristic; it is
attempted at most once, in `fetchAll` mode, and always with the fixed
`$top=50` parameter — the caller's entire filter expression, including any
explicit row-limit, is dropped. -/
theorem c8_filter_retry_amended :
    ∀ inp : PostInputs,
      ((postHandler inp).2.countP isItemsRetryEvt ≤ 1) ∧
      (∀ ps mode, PostEvent.itemsRetryFetch ps mode ∈ (postHandler inp).2 →
        ps = [QClause.top 50] ∧ mode = true ∧ inp.objectName = "Items" ∧
        inp.filterParams ≠ [] ∧
        ∃ m, inp.firstOutcome = FetchOut.thrown m ∧ isAuthErrorMsg m = false ∧
          isInvalidPropertyMsg m = true) := by
  intro inp
  obtain ⟨obn, fp, ab0, f1, ab1, rl, rt, irt⟩ := inp
  cases ab0 with
  | true =>
    refine ⟨by simp [postHandler], ?_⟩
    intro ps mode hmem
    simp [postHandler] at hmem
  | false =>
    cases f1 with
    | ok =>
      refine ⟨?_, ?_⟩
      · cases ab1 <;>
          simp [postHandler, List.countP_cons, List.countP_nil, isItemsRetryEvt]
      · intro ps mode hmem
        cases ab1 <;> simp [postHandler] at hmem
    | thrown m =>
      by_cases hA : isAuthErrorMsg m = true
      · refine ⟨?_, ?_⟩
        · cases rl with
          | none =>
            simp [postHandler, hA, List.countP_cons, List.countP_nil, isItemsRetryEvt]
          | some sid =>
            cases rt <;>
              simp [postHandler, hA, List.countP_cons, List.countP_nil, isItemsRetryEvt]
        · intro ps mode hmem
          cases rl with
          | none => simp [postHandler, hA] at hmem
          | some sid => cases rt <;> simp [postHandler, hA] at hmem
      · by_cases hI : (obn == "Items" && !fp.isEmpty && isInvalidPropertyMsg m) = true
        · refine ⟨?_, ?_⟩
          · cases irt <;>
              simp [postHandler, hA, hI, List.countP_cons, List.countP_nil,
                    isItemsRetryEvt]
          · intro ps mode hmem
            have hI2 := hI
            simp only [Bool.and_eq_true] at hI2
            obtain ⟨⟨hobn, hfp⟩, hinv⟩ := hI2
            have hmem2 : ps = [QClause.top 50] ∧ mode = true := by
              cases irt <;> simp [postHandler, hA, hI] at hmem <;> exact hmem
            refine ⟨hmem2.1, hmem2.2, by simpa using hobn, by simpa using hfp,
                    m, rfl, ?_, hinv⟩
            simpa using hA
        · refine ⟨by simp [postHandler, hA, hI, List.countP_cons, List.countP_nil,
                          isItemsRetryEvt], ?_⟩
          intro ps mode hmem
          simp [postHandler, hA, hI] at hmem

/-- Witness for C8's amended claim on the `Items` scenario. -/
theorem c8_filter_retry_amended_witness :
    [QClause.top 50] = [QClause.top 50] ∧ true = true ∧
    itemsScenarioInputs.objectName = "Items" ∧
    itemsScenarioInputs.filterParams ≠ [] ∧
    ∃ m, itemsScenarioInputs.firstOutcome = FetchOut.thrown m ∧
      isAuthErrorMsg m = false ∧ isInvalidPropertyMsg m = true :=
  (c8_filter_retry_amended itemsScenarioInputs).2 [QClause.top 50] true (by decide)

/-- C9.  Two-run noninterference of the session cache in the password field:
any two settings records agreeing on the normalized server URL, the company
database and the user name — the password may differ — produce the identical
connection key, and `getCachedSession` behaves identically on them, so a
session cached under one password is returned for the other. -/
theorem c9_password_noninterference :
    ∀ s1 s2 : SAPB1Settings,
      normalizeServerUrl s1.sapServer = normalizeServerUrl s2.sapServer →
      s1.companyDB = s2.companyDB → s1.userName = s2.userName →
      getConnectionKey s1 = getConnectionKey s2 ∧
      ∀ (cache : SessionCache) (now : Nat),
        getCachedSessionM s1 cache now = getCachedSessionM s2 cache now := by
  intro s1 s2 hsrv hdb husr
  have hkey : getConnectionKey s1 = getConnectionKey s2 := by
    unfold getConnectionKey
    rw [hsrv, hdb, husr]
  refine ⟨hkey, ?_⟩
  intro cache now
  unfold getCachedSessionM
  rw [hkey]

/-- Witness for C9: `settingsA` and `settingsB` differ only in password, and
the session cached under `settingsA`'s key is served for both. -/
theorem c9_password_noninterference_witness :
    getConnectionKey settingsA = getConnectionKey settingsB ∧
    getCachedSessionM settingsA demoCache 5000 =
      getCachedSessionM settingsB demoCache 5000 ∧
    (getCachedSessionM settingsB demoCache 5000).1 = some "CACHED1" := by
  have h := c9_password_noninterference settingsA settingsB rfl rfl rfl
  exact ⟨h.1, h.2 demoCache 5000, by decide⟩

/-- C10.  The `POST` handler's first attempt always fetches with the filter
rewritten by the `$top=50` rule — `$top=50` is appended when absent and an
existing `$top=N` is replaced by 50 unconditionally, even when `N < 50` — in
non-paginated mode (`fetchAll = false`); since the rewritten filter always
carries a `$top` clause, the single upstream request uses it verbatim
(no `$top=10000` default is added), so a query that succeeds without a retry
requests at most 50 rows. -/
theorem c10_top50_rewrite :
    (∀ inp : PostInputs, inp.abortedBeforeFetch = false →
        ((postHandler inp).2).head? =
          some (PostEvent.firstFetch (limitFilterParams inp.filterParams) false)) ∧
    (∀ fp : List QClause, QClause.top 50 ∈ limitFilterParams fp) ∧
    (∀ fp : List QClause, (topValues fp).length ≤ 1 →
        topValues (limitFilterParams fp) = [50]) ∧
    (∀ fp : List QClause,
        singleRequestParams (limitFilterParams fp) = limitFilterParams fp) := by
  refine ⟨?_, limitFilterParams_mem, ?_, ?_⟩
  · intro inp hab
    obtain ⟨obn, fp, ab0, f1, ab1, rl, rt, irt⟩ := inp
    simp only at hab
    subst hab
    cases f1 with
    | ok => cases ab1 <;> simp [postHandler]
    | thrown m =>
      by_cases hA : isAuthErrorMsg m = true
      · cases rl with
        | none => simp [postHandler, hA]
        | some sid => cases rt <;> simp [postHandler, hA]
      · by_cases hI : (obn == "Items" && !fp.isEmpty && isInvalidPropertyMsg m) = true
        · cases irt <;> simp [postHandler, hA, hI]
        · simp [postHandler, hA, hI]
  · intro fp hlen
    unfold limitFilterParams
    by_cases hne : fp ≠ []
    · rw [if_pos hne]
      by_cases ht : hasTopClause fp = true
      · rw [if_neg (by simp [ht])]
        rcases htv : topValues fp with _ | ⟨m, rest⟩
        · exact absurd htv (topValues_ne_nil_of_hasTop ht)
        · cases rest with
          | nil => exact topValues_replaceFirstTop htv 50
          | cons m2 r2 =>
            rw [htv] at hlen
            simp at hlen
      · rw [if_pos ht]
        rw [topValues_append, topValues_nil_of_not_hasTop (by simpa using ht)]
        rfl
    · rw [if_neg hne]
      rfl
  · intro fp
    unfold singleRequestParams
    rw [if_pos (hasTopClause_of_mem (limitFilterParams_mem fp))]

/-- Witness for C10 on the `Items` scenario, whose caller requested
`$top=10` (smaller than 50): the first fetch uses the rewritten filter in
non-paginated mode, and the rewritten filter's only row limit is 50. -/
theorem c10_top50_rewrite_witness :
    ((postHandler itemsScenarioInputs).2).head? =
      some (PostEvent.firstFetch (limitFilterParams filterTop10) false) ∧
    QClause.top 50 ∈ limitFilterParams filterTop10 ∧
    topValues (limitFilterParams filterTop10) = [50] ∧
    singleRequestParams (limitFilterParams filterTop10) = limitFilterParams filterTop10 :=
  ⟨c10_top50_rewrite.1 itemsScenarioInputs rfl,
   c10_top50_rewrite.2.1 filterTop10,
   c10_top50_rewrite.2.2.1 filterTop10 (by decide),
   c10_top50_rewrite.2.2.2 filterTop10⟩
